import Mathlib

/-!
Shallow embedding of `tracking/middleware.py` (django-tracking).

Time is modelled as an integer timestamp in seconds: `timedelta(minutes=5)`
is `300`, `timedelta(hours=1)` is `3600`.  A Django `datetime` field that may
be `NULL`/unset is `Option Int` (`not visitor.last_update` in Python is true
exactly for `None` here, since a real `datetime` is always truthy).

The Django ORM is modelled over a `List Visitor` store.  `Model.objects.get`
over a predicate returns the unique matching row, raises `DoesNotExist` when
there is none and `MultipleObjectsReturned` when there are several; only
`DoesNotExist` is caught by the middleware, so `MultipleObjectsReturned`
propagates (modelled as `Except.error`).
-/

/-- The `Visitor` model row (`tracking.models.Visitor`), with the fields the
middleware reads and writes. -/
structure Visitor where
  session_key : String
  ip_address : String
  user_agent : String
  user : Option String
  url : String
  referrer : String
  page_views : Nat
  session_start : Option Int
  last_update : Option Int
deriving DecidableEq

/-- A fresh unsaved `Visitor(**attrs)` with `attrs = {session_key, ip_address}`;
every other field still has its model default (empty / NULL). -/
def newVisitor (sk ip : String) : Visitor :=
  { session_key := sk, ip_address := ip, user_agent := "", user := none,
    url := "", referrer := "", page_views := 0, session_start := none,
    last_update := none }

/-- The identity signals the middleware extracts from the inbound request.
`META.get` keys that may be absent are `Option String`; `user` is `none` for
`AnonymousUser` (the code maps `AnonymousUser` to `None` itself). -/
structure Request where
  is_ajax : Bool
  session_key : String
  remote_addr : Option String
  http_user_agent : Option String
  http_referer : Option String
  path : String
  user : Option String
deriving DecidableEq

/-- Registry data feeding the middleware: `UntrackedUserAgent` keywords,
`utils.get_untracked_prefixes()`, and the two deployment asset roots
(`settings.MEDIA_URL`, `settings.ADMIN_MEDIA_PREFIX`) that are appended to the
untracked path roots. -/
structure TrackingEnv where
  uaKeywords : List String
  untrackedRoots : List String
  mediaRoot : String
  adminMediaRoot : String
deriving DecidableEq

/-- `chStarts p s` : list `s` begins with list `p` (Python `startswith`). -/
def chStarts : List Char → List Char → Bool
  | [], _ => true
  | _ :: _, [] => false
  | p :: ps, s :: ss => p == s && chStarts ps ss

/-- `chSub n h` : list `n` occurs as a contiguous run inside list `h`. -/
def chSub (needle : List Char) : List Char → Bool
  | [] => needle.isEmpty
  | c :: rest => chStarts needle (c :: rest) || chSub needle rest

/-- `s.startswith(p)` on strings. -/
def strStarts (s p : String) : Bool := chStarts p.data s.data

/-- `s.find(sub) != -1` on strings: `sub` occurs in `s` (case-sensitive). -/
def strHasSub (s sub : String) : Bool := chSub sub.data s.data

/-- The user-agent exclusion loop (middleware lines 39-42): tracking stops
when any registered keyword occurs in the user agent. -/
def uaExcluded (env : TrackingEnv) (ua : String) : Bool :=
  env.uaKeywords.any (fun kw => strHasSub ua kw)

/-- The full list of untracked path roots the middleware checks
(`utils.get_untracked_prefixes()` plus the two asset roots, lines 44-47). -/
def trackingRoots (env : TrackingEnv) : List String :=
  env.untrackedRoots ++ [env.mediaRoot, env.adminMediaRoot]

/-- `validURL` (middleware lines 50-54): the path begins with none of the
untracked roots. -/
def validURL (env : TrackingEnv) (path : String) : Bool :=
  !((trackingRoots env).any (fun r => strStarts path r))

/-- Outcome of `Model.objects.get(...)` over a row predicate, reported as the
index of the unique matching row. -/
inductive GetResult where
  | found : Nat → GetResult
  | doesNotExist : GetResult
  | multipleObjectsReturned : GetResult
deriving DecidableEq

/-- Indices of the rows of `store` satisfying `p`, in order. -/
def matchIdxs (p : Visitor → Bool) : List Visitor → List Nat
  | [] => []
  | v :: rest =>
    let tl := (matchIdxs p rest).map (· + 1)
    if p v then 0 :: tl else tl

/-- `Model.objects.get(**filter)`: exactly one match returns it, zero raises
`DoesNotExist`, several raise `MultipleObjectsReturned`. -/
def djangoGet (p : Visitor → Bool) (store : List Visitor) : GetResult :=
  match matchIdxs p store with
  | [] => .doesNotExist
  | [i] => .found i
  | _ :: _ :: _ => .multipleObjectsReturned

/-- Row `i` of the store (total accessor used after `djangoGet` has certified
the index). -/
def getAt (store : List Visitor) (i : Nat) : Visitor :=
  (store[i]?).getD (newVisitor "" "")

/-- The exact-match filter `Visitor.objects.get(session_key=..., ip_address=...)`
(middleware line 68). -/
def exactPred (sk ip : String) (v : Visitor) : Bool :=
  v.session_key == sk && v.ip_address == ip

/-- The fuzzy-match filter (middleware lines 73-78):
`ip_address=..., user_agent=..., last_update__gte=now - 5 minutes`.
A `NULL` `last_update` never satisfies an SQL `>=`. -/
def fuzzyPred (ip ua : String) (now : Int) (v : Visitor) : Bool :=
  v.ip_address == ip && v.user_agent == ua &&
    (match v.last_update with
     | some t => decide (now - 300 ≤ t)
     | none => false)

/-- Identity resolution (middleware lines 67-82): exact `(session_key,
ip_address)` lookup; on `DoesNotExist` the fuzzy lookup, whose adopted row gets
`session_key` overwritten; on `DoesNotExist` again a fresh `Visitor`.  Returns
the store index of an adopted row (`some i`) or `none` for a fresh row.
`MultipleObjectsReturned` is not caught and propagates as `Except.error`. -/
def resolveVisitor (sk ip ua : String) (now : Int) (store : List Visitor) :
    Except Unit (Option Nat × Visitor) :=
  match djangoGet (exactPred sk ip) store with
  | .found i => .ok (some i, getAt store i)
  | .multipleObjectsReturned => .error ()
  | .doesNotExist =>
    match djangoGet (fuzzyPred ip ua now) store with
    | .found i => .ok (some i, { getAt store i with session_key := sk })
    | .multipleObjectsReturned => .error ()
    | .doesNotExist => .ok (none, newVisitor sk ip)

/-- The session-window test (middleware lines 95-97):
`not visitor.last_update or visitor.last_update <= now - 1 hour`. -/
def sessionExpired (v : Visitor) (now : Int) : Bool :=
  match v.last_update with
  | none => true
  | some t => decide (t ≤ now - 3600)

/-- The field updates applied to the resolved visitor (middleware lines
84-106): set `user` and `user_agent`; on an expired session window recapture
`referrer` (default `'unknown'`), zero `page_views` and restart
`session_start`; then set `url`, increment `page_views`, stamp `last_update`. -/
def applyTracking (req : Request) (now : Int) (v : Visitor) : Visitor :=
  let ua := req.http_user_agent.getD ""
  let v1 : Visitor := { v with user := req.user, user_agent := ua }
  let v2 : Visitor :=
    if sessionExpired v1 now then
      { v1 with referrer := req.http_referer.getD "unknown",
                page_views := 0, session_start := some now }
    else v1
  { v2 with url := req.path, page_views := v2.page_views + 1,
            last_update := some now }

/-- `VisitorTrackingMiddleware.process_request` as a store transformer: AJAX
requests and excluded user agents / paths leave the store untouched; otherwise
the resolved visitor is updated and saved (an adopted row is rewritten in
place, a fresh row is inserted).  An uncaught ORM error aborts the request. -/
def processRequest (env : TrackingEnv) (req : Request) (now : Int)
    (store : List Visitor) : Except Unit (List Visitor) :=
  if req.is_ajax then .ok store
  else
    let ip := req.remote_addr.getD ""
    let ua := req.http_user_agent.getD ""
    if uaExcluded env ua then .ok store
    else if validURL env req.path then
      match resolveVisitor req.session_key ip ua now store with
      | .error e => .error e
      | .ok (some i, v) => .ok (store.set i (applyTracking req now v))
      | .ok (none, v) => .ok (store ++ [applyTracking req now v])
    else .ok store

/-- A sequence of tracked requests with the same identity signals, one per
timestamp, threading the store through `processRequest`. -/
def processSeq (env : TrackingEnv) (req : Request) :
    List Int → List Visitor → Except Unit (List Visitor)
  | [], store => .ok store
  | t :: ts, store =>
    match processRequest env req t store with
    | .error e => .error e
    | .ok store2 => processSeq env req ts store2

/-- `last_update__lte=cutoff` as the cleanup filter; `NULL` never satisfies an
SQL `<=`. -/
def lastUpdateLte (v : Visitor) (cutoff : Int) : Bool :=
  match v.last_update with
  | some t => decide (t ≤ cutoff)
  | none => false

/-- `VisitorCleanUpMiddleware.process_request` (lines 113-115):
`Visitor.objects.filter(last_update__lte=cutoff).delete()` with
`cutoff = now - retention`. -/
def cleanupDelete (cutoff : Int) (store : List Visitor) : List Visitor :=
  store.filter (fun v => !(lastUpdateLte v cutoff))

/-- `BannedIPMiddleware.process_request` (lines 125-131): Python
`ip in [b.ip_address for b in BannedIP.objects.all()]`, an exact string
membership test; a hit raises `Http404`. -/
def isBannedIP (banned : List String) (req : Request) : Bool :=
  banned.contains (req.remote_addr.getD "")

/-- Outcome of running the per-request middleware chain: `Http404` raised by
the ban gate (store untouched), tracking completed with the new store, or an
uncaught tracking error. -/
inductive PipeOut where
  | http404 : List Visitor → PipeOut
  | done : List Visitor → PipeOut
  | err : PipeOut
deriving DecidableEq

/-- Repackage the tracking middleware result as a pipeline outcome. -/
def toPipe : Except Unit (List Visitor) → PipeOut
  | .ok s => .done s
  | .error _ => .err

/-- The request chain with `BannedIPMiddleware` installed ahead of
`VisitorTrackingMiddleware` (the spec's control flow: the ban gate runs before
tracking begins): a banned IP short-circuits with `Http404` and the tracking
middleware never runs. -/
def pipelineProcess (banned : List String) (env : TrackingEnv) (req : Request)
    (now : Int) (store : List Visitor) : PipeOut :=
  if isBannedIP banned req then .http404 store
  else toPipe (processRequest env req now store)

/-- The non-greedy body of `re.compile('<title>(.*?)</title>')` scanned from a
fixed start: the shortest run of non-newline characters up to the first
`</title>`, or `none` when a newline or the end of input intervenes (`.` does
not match a newline). -/
def titleContent : List Char → Option (List Char)
  | [] => none
  | c :: rest =>
    if c == '<' && chStarts "/title>".data rest then some []
    else if c == '\n' then none
    else (titleContent rest).map (fun t => c :: t)

/-- `title_re.search` over the characters: the leftmost position where
`<title>` opens and a valid body (no newline) reaches a closing `</title>`;
a failed position falls through to the next one, as `re.search` does. -/
def titleScan : List Char → Option (List Char)
  | [] => none
  | c :: rest =>
    if c == '<' && chStarts "title>".data rest then
      match titleContent (rest.drop 6) with
      | some t => some t
      | none => titleScan rest
    else titleScan rest

/-- `title_re.search(content)` returning `group(1)` when a match exists. -/
def titleSearch (content : String) : Option String :=
  (titleScan content.data).map (fun cs => String.mk cs)

/-- The unguarded expression `title_re.search(response.content).group(1)`
(line 142): with no match, `search` returns `None` and `.group` raises
(`AttributeError`), modelled as `Except.error`. -/
def titleAttempt (content : String) : Except Unit String :=
  match titleSearch content with
  | none => .error ()
  | some t => .ok t

/-- Lines 141-144: the `try/except` around the title lookup — any failure
falls back to the empty string. -/
def extractTitle (content : String) : String :=
  match titleAttempt content with
  | .ok t => t
  | .error _ => ""

/-- The response object handed to `process_response`; only `content` is read. -/
structure HttpResponse where
  content : String
deriving DecidableEq

/-- The request `META` values the analytics middleware reads. -/
structure GaMeta where
  http_host : Option String
  path_info : Option String
  http_referer : Option String
  remote_addr : Option String
  http_user_agent : Option String
deriving DecidableEq

/-- The query-string body (line 169): the format string with each `%(name)s`
substituted and each `%%` collapsed to `%`; the constant `-` placeholders for
resolution, color depth, language, java and flash are inlined. -/
def gaData (gid host path referer uservar : String)
    (randRequest randCookie randNumber : Nat) (today : Int)
    (title : String) : String :=
  "utmwv=4.3&utmn=" ++ toString randRequest ++
  "&utmsr=-&utmsc=-&utmul=-&utmje=-&utmfl=-&utmdt=" ++ title ++
  "&utmhn=" ++ host ++ "&utmr=" ++ referer ++ "&utmp=" ++ path ++
  "&utmac=" ++ gid ++ "&utmcc=__utma%3D" ++ toString randCookie ++ "." ++
  toString randNumber ++ "." ++ toString today ++ "." ++ toString today ++
  "." ++ toString today ++ ".2%3B%2B__utmb%3D" ++ toString randCookie ++
  "%3B%2B__utmc%3D" ++ toString randCookie ++ "%3B%2B__utmz%3D" ++
  toString randCookie ++ "." ++ toString today ++
  ".2.2.utmccn%3D(direct)%7Cutmcsr%3D(direct)%7Cutmcmd%3D(none)%3B%2B__utmv%3D"
  ++ toString randCookie ++ "." ++ uservar ++ "%3B"

/-- The fixed collector endpoint (line 172). -/
def gaUrl : String := "http://www.google-analytics.com/__utm.gif"

/-- Lines 146-175 after the title is known: build the payload, call
`urllib2.urlopen` (NOT wrapped in any `try`), and only then return the
response.  `urlopen` is a parameter standing for the network call; its
`Except.error` propagates out of `process_response`. -/
def gaDispatch (urlopen : String → String → Except Unit Unit) (gid : String)
    (meta : GaMeta) (randRequest randCookie randNumber : Nat) (today : Int)
    (title : String) (response : HttpResponse) : Except Unit HttpResponse :=
  let uservar := (meta.remote_addr.getD "") ++ "; " ++
    (meta.http_user_agent.getD "unknown")
  let data := gaData gid (meta.http_host.getD "") (meta.path_info.getD "/")
    (meta.http_referer.getD "") uservar randRequest randCookie randNumber
    today title
  match urlopen gaUrl data with
  | .error e => .error e
  | .ok _ => .ok response

/-- `GoogleAnalyticsMiddleware.process_response` (lines 139-175): guarded
title extraction, then payload build and unguarded beacon dispatch. -/
def gaProcessResponse (urlopen : String → String → Except Unit Unit)
    (gid : String) (meta : GaMeta) (randRequest randCookie randNumber : Nat)
    (today : Int) (response : HttpResponse) : Except Unit HttpResponse :=
  gaDispatch urlopen gid meta randRequest randCookie randNumber today
    (extractTitle response.content) response

/-! ## Helper lemmas -/

/-- Setting `user`/`user_agent` does not disturb the session-window test. -/
theorem sessionExpired_update (u : Option String) (ua : String) (v : Visitor)
    (now : Int) :
    sessionExpired { v with user := u, user_agent := ua } now =
      sessionExpired v now := rfl

/-- Closed form of `applyTracking`, by cases on the session-window test. -/
theorem applyTracking_eq (req : Request) (now : Int) (v : Visitor) :
    applyTracking req now v =
      if sessionExpired v now then
        { v with user := req.user, user_agent := req.http_user_agent.getD "",
                 referrer := req.http_referer.getD "unknown", page_views := 1,
                 session_start := some now, url := req.path,
                 last_update := some now }
      else
        { v with user := req.user, user_agent := req.http_user_agent.getD "",
                 url := req.path, page_views := v.page_views + 1,
                 last_update := some now } := by
  cases hb : sessionExpired v now with
  | true => simp [applyTracking, sessionExpired_update, hb]
  | false => simp [applyTracking, sessionExpired_update, hb]

/-- The boolean session-window test unfolded to its arithmetic meaning. -/
theorem sessionExpired_iff (v : Visitor) (now : Int) :
    sessionExpired v now = true ↔
      (v.last_update = none ∨
        ∃ t, v.last_update = some t ∧ t ≤ now - 3600) := by
  unfold sessionExpired
  cases h : v.last_update <;> simp [h]

/-- The session window is still open exactly when `last_update` is set and
newer than `now - 1 hour`. -/
theorem sessionLive_iff (v : Visitor) (now : Int) :
    sessionExpired v now = false ↔
      ∃ t, v.last_update = some t ∧ now - 3600 < t := by
  unfold sessionExpired
  cases h : v.last_update with
  | none => simp [h]
  | some t => simp [h, Int.not_le]

/-- Field frame facts of `applyTracking`: identity keys are never changed and
`last_update` is always stamped with `now`. -/
theorem applyTracking_frame (req : Request) (now : Int) (v : Visitor) :
    (applyTracking req now v).session_key = v.session_key ∧
    (applyTracking req now v).ip_address = v.ip_address ∧
    (applyTracking req now v).last_update = some now := by
  rw [applyTracking_eq]
  split <;> exact ⟨rfl, rfl, rfl⟩

/-- `applyTracking` on an expired session window: `referrer` recaptured,
`page_views` restarted at 1, `session_start` stamped. -/
theorem applyTracking_expired (req : Request) (now : Int) (v : Visitor)
    (h : sessionExpired v now = true) :
    (applyTracking req now v).referrer = req.http_referer.getD "unknown" ∧
    (applyTracking req now v).page_views = 1 ∧
    (applyTracking req now v).session_start = some now := by
  rw [applyTracking_eq, h]
  exact ⟨rfl, rfl, rfl⟩

/-- `applyTracking` on a live session window: `referrer` and `session_start`
untouched, `page_views` bumped by one. -/
theorem applyTracking_live (req : Request) (now : Int) (v : Visitor)
    (h : sessionExpired v now = false) :
    (applyTracking req now v).referrer = v.referrer ∧
    (applyTracking req now v).session_start = v.session_start ∧
    (applyTracking req now v).page_views = v.page_views + 1 := by
  rw [applyTracking_eq, h]
  exact ⟨rfl, rfl, rfl⟩

/-- A non-AJAX, non-excluded request on a tracked URL reaches resolution. -/
theorem processRequest_go (env : TrackingEnv) (req : Request) (now : Int)
    (store : List Visitor) (hajax : req.is_ajax = false)
    (hua : uaExcluded env (req.http_user_agent.getD "") = false)
    (hurl : validURL env req.path = true) :
    processRequest env req now store =
      match resolveVisitor req.session_key (req.remote_addr.getD "")
          (req.http_user_agent.getD "") now store with
      | .error e => .error e
      | .ok (some i, v) => .ok (store.set i (applyTracking req now v))
      | .ok (none, v) => .ok (store ++ [applyTracking req now v]) := by
  simp [processRequest, hajax, hua, hurl]

/-- Resolution over an empty store creates a fresh visitor. -/
theorem resolveVisitor_empty (sk ip ua : String) (now : Int) :
    resolveVisitor sk ip ua now [] = .ok (none, newVisitor sk ip) := rfl

/-- Resolution over a one-row store whose row carries the request's own
`(session_key, ip_address)` finds that row exactly. -/
theorem resolveVisitor_self (sk ip ua : String) (now : Int) (v : Visitor)
    (hsk : v.session_key = sk) (hip : v.ip_address = ip) :
    resolveVisitor sk ip ua now [v] = .ok (some 0, v) := by
  have hp : exactPred sk ip v = true := by simp [exactPred, hsk, hip]
  simp [resolveVisitor, djangoGet, matchIdxs, hp, getAt]

/-- One tracked request against a one-row store holding the request's own
record rewrites that record in place. -/
theorem processRequest_single (env : TrackingEnv) (req : Request) (now : Int)
    (v : Visitor) (hajax : req.is_ajax = false)
    (hua : uaExcluded env (req.http_user_agent.getD "") = false)
    (hurl : validURL env req.path = true)
    (hsk : v.session_key = req.session_key)
    (hip : v.ip_address = req.remote_addr.getD "") :
    processRequest env req now [v] = .ok [applyTracking req now v] := by
  rw [processRequest_go env req now [v] hajax hua hurl,
    resolveVisitor_self _ _ _ _ _ hsk hip]
  rfl

/-- The first tracked request against an empty store inserts a fresh record
keyed by the request's `(session_key, ip_address)`. -/
theorem processRequest_first (env : TrackingEnv) (req : Request) (t0 : Int)
    (hajax : req.is_ajax = false)
    (hua : uaExcluded env (req.http_user_agent.getD "") = false)
    (hurl : validURL env req.path = true) :
    processRequest env req t0 [] =
      .ok [applyTracking req t0
        (newVisitor req.session_key (req.remote_addr.getD ""))] := by
  rw [processRequest_go env req t0 [] hajax hua hurl]
  rfl

/-- Running a sequence of tracked requests against the single record that
already carries the request's identity: the record stays unique and gains one
page view per request, provided each request arrives strictly within one hour
of the record's previous update. -/
theorem processSeq_single_run (env : TrackingEnv) (req : Request)
    (hajax : req.is_ajax = false)
    (hua : uaExcluded env (req.http_user_agent.getD "") = false)
    (hurl : validURL env req.path = true) :
    ∀ (ts : List Int) (v : Visitor) (tprev : Int),
      v.session_key = req.session_key →
      v.ip_address = req.remote_addr.getD "" →
      v.last_update = some tprev →
      List.Chain' (fun a b => b - a < 3600) (tprev :: ts) →
      ∃ v2 : Visitor, processSeq env req ts [v] = .ok [v2] ∧
        v2.page_views = v.page_views + ts.length ∧
        v2.session_key = req.session_key ∧
        v2.ip_address = req.remote_addr.getD "" := by
  intro ts
  induction ts with
  | nil =>
    intro v tprev hsk hip _ _
    exact ⟨v, rfl, by simp, hsk, hip⟩
  | cons t rest ih =>
    intro v tprev hsk hip hlu hch
    rw [List.chain'_cons] at hch
    obtain ⟨hgap, hch2⟩ := hch
    have hstep := processRequest_single env req t v hajax hua hurl hsk hip
    have hlive : sessionExpired v t = false := by
      rw [sessionLive_iff]
      exact ⟨tprev, hlu, by omega⟩
    obtain ⟨hfsk, hfip, hflu⟩ := applyTracking_frame req t v
    obtain ⟨v2, hrun, hpv, hsk2, hip2⟩ :=
      ih (applyTracking req t v) t (hfsk.trans hsk) (hfip.trans hip) hflu hch2
    refine ⟨v2, ?_, ?_, hsk2, hip2⟩
    · simp only [processSeq]
      rw [hstep]
      exact hrun
    · have hbump := (applyTracking_live req t v hlive).2.2
      rw [hpv, hbump, List.length_cons]
      omega

/-- Shared concrete inputs for witnesses and counterexamples. -/
def demoEnv : TrackingEnv :=
  { uaKeywords := [], untrackedRoots := [],
    mediaRoot := "/media/", adminMediaRoot := "/adminmedia/" }

/-- A plain trackable request: not AJAX, no referer header, anonymous user. -/
def demoReq : Request :=
  { is_ajax := false, session_key := "sess", remote_addr := some "1.2.3.4",
    http_user_agent := some "UA-X", http_referer := none, path := "/page",
    user := none }

/-! ## Claim theorems -/

/-- Claim C1: when a request has no exact `(session_key, ip_address)` match in
the store, resolution adopts the one existing visitor with the same
`ip_address` and `user_agent` whose `last_update` is at least `now - 5
minutes`, overwriting its `session_key` with the new value; and when no such
record exists, a brand-new visitor keyed by `(session_key, ip_address)` is
created instead. -/
theorem C1_resolution (sk ip ua : String) (now : Int) (store : List Visitor)
    (hexact : matchIdxs (exactPred sk ip) store = []) :
    (∀ i v, matchIdxs (fuzzyPred ip ua now) store = [i] →
      store[i]? = some v →
      resolveVisitor sk ip ua now store =
        .ok (some i, { v with session_key := sk })) ∧
    (matchIdxs (fuzzyPred ip ua now) store = [] →
      resolveVisitor sk ip ua now store = .ok (none, newVisitor sk ip)) := by
  constructor
  · intro i v hf hv
    simp [resolveVisitor, djangoGet, hexact, hf, getAt, hv]
  · intro hf
    simp [resolveVisitor, djangoGet, hexact, hf]

/-- The spec's own fuzzy-match scenario: a visitor with IP `1.2.3.4` and
user agent `UA-X` last updated 4 minutes ago (240 of 480 seconds). -/
def vFuzzy : Visitor :=
  { newVisitor "old" "1.2.3.4" with
    user_agent := "UA-X", last_update := some 240 }

/-- Witness for C1: at `now = 480` (4 minutes after 240) the new session key
adopts `vFuzzy`; at `now = 600` (6 minutes after) a fresh record is created. -/
theorem C1_resolution_witness :
    resolveVisitor "new" "1.2.3.4" "UA-X" 480 [vFuzzy] =
      .ok (some 0, { vFuzzy with session_key := "new" }) ∧
    resolveVisitor "new" "1.2.3.4" "UA-X" 600 [vFuzzy] =
      .ok (none, newVisitor "new" "1.2.3.4") := by
  constructor
  · exact (C1_resolution "new" "1.2.3.4" "UA-X" 480 [vFuzzy]
      (by decide)).1 0 vFuzzy (by decide) (by decide)
  · exact (C1_resolution "new" "1.2.3.4" "UA-X" 600 [vFuzzy]
      (by decide)).2 (by decide)

/-- Page-view counters of a tracking run, for stating concrete outcomes. -/
def pageViewsOf : Except Unit (List Visitor) → List Nat
  | .ok s => s.map (fun v => v.page_views)
  | .error _ => []

/-- Counterexample to claim C2: two requests with identical
`(session_key, ip_address)` exactly one hour apart (so no request is *more*
than one hour after its predecessor, as the claim allows), yet after N = 2
requests the single record's `page_views` is 1, not 2 — `last_update <= now -
1 hour` holds at the boundary, so the session window resets. -/
theorem C2_boundary_counterexample :
    pageViewsOf (processSeq demoEnv demoReq [0, 3600] []) = [1] ∧
    pageViewsOf (processSeq demoEnv demoReq [0, 3600] []) ≠ [2] := by
  exact ⟨rfl, by decide⟩

/-- Claim C2 (amended): for every N >= 1, after N sequential tracked requests
carrying the identical `(session_key, ip_address)` pair, with each request
STRICTLY LESS than one hour after its predecessor, exactly one visitor record
exists for that pair and its `page_views` counter equals N. -/
theorem C2_amended_pageviews (env : TrackingEnv) (req : Request)
    (hajax : req.is_ajax = false)
    (hua : uaExcluded env (req.http_user_agent.getD "") = false)
    (hurl : validURL env req.path = true)
    (ts : List Int) (hne : ts ≠ [])
    (hchain : List.Chain' (fun a b => b - a < 3600) ts) :
    ∃ v : Visitor, processSeq env req ts [] = .ok [v] ∧
      v.page_views = ts.length ∧
      v.session_key = req.session_key ∧
      v.ip_address = req.remote_addr.getD "" := by
  cases ts with
  | nil => exact absurd rfl hne
  | cons t0 rest =>
    have hfirst := processRequest_first env req t0 hajax hua hurl
    have hexp : sessionExpired
        (newVisitor req.session_key (req.remote_addr.getD "")) t0 = true := rfl
    obtain ⟨hfsk, hfip, hflu⟩ := applyTracking_frame req t0
      (newVisitor req.session_key (req.remote_addr.getD ""))
    have hpv1 := (applyTracking_expired req t0
      (newVisitor req.session_key (req.remote_addr.getD "")) hexp).2.1
    obtain ⟨v2, hrun, hpv, hsk2, hip2⟩ := processSeq_single_run env req hajax
      hua hurl rest
      (applyTracking req t0 (newVisitor req.session_key (req.remote_addr.getD "")))
      t0 hfsk hfip hflu hchain
    refine ⟨v2, ?_, ?_, hsk2, hip2⟩
    · simp only [processSeq]
      rw [hfirst]
      exact hrun
    · rw [hpv, hpv1, List.length_cons]
      omega

/-- Witness for the amended C2: three requests half an hour apart leave one
record with three page views. -/
theorem C2_amended_witness :
    ∃ v : Visitor, processSeq demoEnv demoReq [0, 1800, 3000] [] = .ok [v] ∧
      v.page_views = [0, 1800, 3000].length ∧
      v.session_key = demoReq.session_key ∧
      v.ip_address = demoReq.remote_addr.getD "" :=
  C2_amended_pageviews demoEnv demoReq rfl rfl rfl [0, 1800, 3000]
    (by decide) (by simp [List.chain'_cons])

/-- Claim C3: the resolved record's `referrer`, `session_start` and
`page_views` are reset (`page_views` to 0, then incremented to 1; `referrer`
recaptured from the request's referer header; `session_start` set to `now`)
exactly when the record's `last_update` is absent (in particular when it is
brand new) or `last_update <= now - 1 hour`; on every other tracked request
`referrer` and `session_start` are left unchanged while `page_views` grows by
exactly 1. -/
theorem C3_session_window (req : Request) (now : Int) (v : Visitor) :
    ((v.last_update = none ∨
        ∃ t, v.last_update = some t ∧ t ≤ now - 3600) →
      (applyTracking req now v).referrer = req.http_referer.getD "unknown" ∧
      (applyTracking req now v).page_views = 1 ∧
      (applyTracking req now v).session_start = some now) ∧
    ((∃ t, v.last_update = some t ∧ now - 3600 < t) →
      (applyTracking req now v).referrer = v.referrer ∧
      (applyTracking req now v).session_start = v.session_start ∧
      (applyTracking req now v).page_views = v.page_views + 1) := by
  constructor
  · intro h
    exact applyTracking_expired req now v ((sessionExpired_iff v now).mpr h)
  · intro h
    exact applyTracking_live req now v ((sessionLive_iff v now).mpr h)

/-- A request carrying a referer header, for the session-window witnesses. -/
def demoReqRef : Request :=
  { demoReq with http_referer := some "http://ref.example/" }

/-- Witness for C3: with `last_update` 61 minutes in the past (now = 3900,
last update 240) the window resets and `page_views` restarts at 1 with the
referer recaptured; at thirty minutes of inactivity instead the window
continues and the counter only bumps. -/
theorem C3_session_window_witness :
    ((applyTracking demoReqRef 3900 vFuzzy).referrer = "http://ref.example/" ∧
      (applyTracking demoReqRef 3900 vFuzzy).page_views = 1 ∧
      (applyTracking demoReqRef 3900 vFuzzy).session_start = some 3900) ∧
    ((applyTracking demoReqRef 2040 vFuzzy).referrer = vFuzzy.referrer ∧
      (applyTracking demoReqRef 2040 vFuzzy).session_start =
        vFuzzy.session_start ∧
      (applyTracking demoReqRef 2040 vFuzzy).page_views =
        vFuzzy.page_views + 1) := by
  constructor
  · exact (C3_session_window demoReqRef 3900 vFuzzy).1
      (Or.inr ⟨240, rfl, by decide⟩)
  · exact (C3_session_window demoReqRef 2040 vFuzzy).2 ⟨240, rfl, by decide⟩

/-- Claim C10: on a tracked request that starts a new session window and
carries no referer header, the visitor's `referrer` field is set to the
literal string `'unknown'` (the `META.get` default), not left empty. -/
theorem C10_referrer_unknown (req : Request) (now : Int) (v : Visitor)
    (href : req.http_referer = none)
    (hexp : v.last_update = none ∨
      ∃ t, v.last_update = some t ∧ t ≤ now - 3600) :
    (applyTracking req now v).referrer = "unknown" := by
  have h := (applyTracking_expired req now v
    ((sessionExpired_iff v now).mpr hexp)).1
  rw [h, href]
  rfl

/-- Witness for C10: a brand-new visitor tracked by a request with no referer
header gets `referrer = "unknown"`. -/
theorem C10_referrer_unknown_witness :
    (applyTracking demoReq 0 (newVisitor "sess" "1.2.3.4")).referrer =
      "unknown" :=
  C10_referrer_unknown demoReq 0 (newVisitor "sess" "1.2.3.4") rfl
    (Or.inl rfl)

/-- A list of length at most one is empty or a singleton. -/
theorem lenLeOne {α : Type} {l : List α} (h : l.length ≤ 1) :
    l = [] ∨ ∃ a, l = [a] := by
  cases l with
  | nil => exact Or.inl rfl
  | cons a t =>
    cases t with
    | nil => exact Or.inr ⟨a, rfl⟩
    | cons b u => simp at h

/-- A list of length at least two starts with two elements. -/
theorem twoLe {α : Type} {l : List α} (h : 2 ≤ l.length) :
    ∃ a b t, l = a :: b :: t := by
  cases l with
  | nil => simp at h
  | cons a t =>
    cases t with
    | nil => simp at h
    | cons b u => exact ⟨a, b, u, rfl⟩

/-- Claim C4 (amended): resolution succeeds whenever each of the two lookups
matches at most one record (absence of matches is the normal fresh-visitor
branch), but when no exact match exists and SEVERAL records satisfy the
(ip_address, user_agent, 5-minute-recency) criteria, the fuzzy `get` raises
`MultipleObjectsReturned` — it does not return the most recent match. -/
theorem C4_amended_resolution (sk ip ua : String) (now : Int)
    (store : List Visitor) :
    ((matchIdxs (exactPred sk ip) store).length ≤ 1 →
      (matchIdxs (fuzzyPred ip ua now) store).length ≤ 1 →
      ∃ r, resolveVisitor sk ip ua now store = .ok r) ∧
    (matchIdxs (exactPred sk ip) store = [] →
      2 ≤ (matchIdxs (fuzzyPred ip ua now) store).length →
      resolveVisitor sk ip ua now store = .error ()) := by
  constructor
  · intro h1 h2
    rcases lenLeOne h1 with he | ⟨i, he⟩
    · rcases lenLeOne h2 with hf | ⟨j, hf⟩
      · exact ⟨(none, newVisitor sk ip),
          by simp [resolveVisitor, djangoGet, he, hf]⟩
      · exact ⟨(some j, { getAt store j with session_key := sk }),
          by simp [resolveVisitor, djangoGet, he, hf]⟩
    · exact ⟨(some i, getAt store i),
        by simp [resolveVisitor, djangoGet, he]⟩
  · intro he h2
    obtain ⟨a, b, t, hf⟩ := twoLe h2
    simp [resolveVisitor, djangoGet, he, hf]

/-- Two distinct visitors that both satisfy the fuzzy criteria for IP
`1.2.3.4` and user agent `UA-X` at `now = 1000`. -/
def vDupA : Visitor :=
  { newVisitor "a" "1.2.3.4" with
    user_agent := "UA-X", last_update := some 900 }

/-- Second fuzzy duplicate (different session key, older update). -/
def vDupB : Visitor :=
  { newVisitor "b" "1.2.3.4" with
    user_agent := "UA-X", last_update := some 800 }

/-- Counterexample to claim C4: with no exact match and two records both
satisfying the IP / user-agent / 5-minute-recency criteria, resolution does
not return the most-recently-updated match — it fails outright
(`MultipleObjectsReturned` escapes the middleware). -/
theorem C4_multiple_match_counterexample :
    resolveVisitor "c" "1.2.3.4" "UA-X" 1000 [vDupA, vDupB] =
      .error () := rfl

/-- Witness for the amended C4: one fuzzy candidate resolves fine; two fuzzy
candidates hit the error branch. -/
theorem C4_amended_witness :
    (∃ r, resolveVisitor "c" "1.2.3.4" "UA-X" 1000 [vDupA] = .ok r) ∧
    resolveVisitor "c" "1.2.3.4" "UA-X" 1000 [vDupB, vDupA] =
      .error () := by
  constructor
  · exact (C4_amended_resolution "c" "1.2.3.4" "UA-X" 1000 [vDupA]).1
      (by decide) (by decide)
  · exact (C4_amended_resolution "c" "1.2.3.4" "UA-X" 1000 [vDupB, vDupA]).2
      (by decide) (by decide)

/-- Claim C6: a request whose IP address is an exact string member of the
current ban list is rejected with `Http404` before any tracking or identity
resolution occurs — the visitor store is untouched — while a request whose
IP is not in the list passes through to the tracking middleware with exactly
the outcome tracking alone would produce. -/
theorem C6_banned_gate (banned : List String) (env : TrackingEnv)
    (req : Request) (now : Int) (store : List Visitor) :
    (isBannedIP banned req = true →
      pipelineProcess banned env req now store = .http404 store) ∧
    (isBannedIP banned req = false →
      pipelineProcess banned env req now store =
        toPipe (processRequest env req now store)) := by
  constructor <;> intro h <;> simp [pipelineProcess, h]

/-- Witness for C6: with ban list `["9.9.9.9"]`, a request from `9.9.9.9`
yields `Http404` and an untouched store; `demoReq` (IP `1.2.3.4`) passes
through to tracking. -/
theorem C6_banned_gate_witness :
    pipelineProcess ["9.9.9.9"] demoEnv
      { demoReq with remote_addr := some "9.9.9.9" } 0 [vFuzzy] =
      .http404 [vFuzzy] ∧
    pipelineProcess ["9.9.9.9"] demoEnv demoReq 0 [vFuzzy] =
      toPipe (processRequest demoEnv demoReq 0 [vFuzzy]) := by
  constructor
  · exact (C6_banned_gate ["9.9.9.9"] demoEnv
      { demoReq with remote_addr := some "9.9.9.9" } 0 [vFuzzy]).1 rfl
  · exact (C6_banned_gate ["9.9.9.9"] demoEnv demoReq 0 [vFuzzy]).2 rfl

/-- Claim C7: a request whose path starts with any registered untracked root,
or whose user agent contains any registered excluded keyword as a
case-sensitive run of characters, stops the tracking pipeline before
resolution — no visitor record is created or updated and the store is
returned entirely unchanged. -/
theorem C7_exclusion_frame (env : TrackingEnv) (req : Request) (now : Int)
    (store : List Visitor)
    (h : (∃ kw ∈ env.uaKeywords,
            strHasSub (req.http_user_agent.getD "") kw = true) ∨
         (∃ r ∈ trackingRoots env, strStarts req.path r = true)) :
    processRequest env req now store = .ok store := by
  rcases h with h | h
  · have hb : uaExcluded env (req.http_user_agent.getD "") = true := by
      rw [uaExcluded, List.any_eq_true]
      exact h
    simp [processRequest, hb]
  · have hb : validURL env req.path = false := by
      rw [validURL, Bool.not_eq_false', List.any_eq_true]
      exact h
    simp [processRequest, hb]

/-- An exclusion environment registering the keyword `bot` and the untracked
root `/static/`. -/
def botEnv : TrackingEnv :=
  { demoEnv with uaKeywords := ["bot"], untrackedRoots := ["/static/"] }

/-- Witness for C7: a crawler user agent containing `bot` leaves the store
unchanged, and so does a request for a path under `/static/`. -/
theorem C7_exclusion_frame_witness :
    processRequest botEnv
      { demoReq with http_user_agent := some "Examplebot/2.1" } 0 [vFuzzy] =
      .ok [vFuzzy] ∧
    processRequest botEnv
      { demoReq with path := "/static/logo.png" } 0 [vFuzzy] =
      .ok [vFuzzy] := by
  constructor
  · exact C7_exclusion_frame botEnv
      { demoReq with http_user_agent := some "Examplebot/2.1" } 0 [vFuzzy]
      (Or.inl ⟨"bot", by decide, by decide⟩)
  · exact C7_exclusion_frame botEnv
      { demoReq with path := "/static/logo.png" } 0 [vFuzzy]
      (Or.inr ⟨"/static/", by decide, by decide⟩)

/-- Claim C8: for every cutoff and store, the cleanup pass keeps exactly the
records whose `last_update` is NOT `<= cutoff` — a record is in the result
iff it was in the store and survives the age test — and the survivors are the
original records themselves, unchanged and in order (a sublist of the
store). -/
theorem C8_cleanup (cutoff : Int) (store : List Visitor) :
    (∀ v, v ∈ cleanupDelete cutoff store ↔
      (v ∈ store ∧ lastUpdateLte v cutoff = false)) ∧
    List.Sublist (cleanupDelete cutoff store) store := by
  constructor
  · intro v
    simp [cleanupDelete, List.mem_filter]
  · exact List.filter_sublist store

/-- Witness for C8: with cutoff 850, `vDupB` (update 800) is deleted while
`vDupA` (update 900) survives. -/
theorem C8_cleanup_witness :
    vDupA ∈ cleanupDelete 850 [vDupA, vDupB] ∧
    ¬ vDupB ∈ cleanupDelete 850 [vDupA, vDupB] := by
  constructor
  · exact ((C8_cleanup 850 [vDupA, vDupB]).1 vDupA).mpr
      ⟨by decide, by decide⟩
  · intro hmem
    have h := ((C8_cleanup 850 [vDupA, vDupB]).1 vDupB).mp hmem
    exact absurd h.2 (by decide)

/-- Sample request metadata for the analytics middleware. -/
def demoMeta : GaMeta :=
  { http_host := some "example.com", path_info := some "/page",
    http_referer := none, remote_addr := some "1.2.3.4",
    http_user_agent := some "UA-X" }

/-- A response whose body has no title tag. -/
def demoResp : HttpResponse := { content := "no title here" }

/-- A beacon transport that always fails (network error from
`urllib2.urlopen`). -/
def gaFailOpen : String → String → Except Unit Unit := fun _ _ => .error ()

/-- Counterexample to claim C5: when the beacon call raises, the exception
escapes `process_response` — the original response is NOT returned to the
client (there is no `try/except` around `urlopen`). -/
theorem C5_dispatch_counterexample :
    gaProcessResponse gaFailOpen "UA-1" demoMeta 1 2 3 0 demoResp =
      .error () ∧
    (gaProcessResponse gaFailOpen "UA-1" demoMeta 1 2 3 0 demoResp).isOk =
      false := ⟨rfl, rfl⟩

/-- Claim C5 (amended): the beacon dispatch never alters a successful
response — when `urlopen` succeeds the original response object is returned
unmodified — but a dispatch failure is NOT swallowed: the error propagates to
the caller in place of the response. -/
theorem C5_amended_response (urlopen : String → String → Except Unit Unit)
    (gid : String) (meta : GaMeta) (randRequest randCookie randNumber : Nat)
    (today : Int) (response : HttpResponse) :
    (urlopen gaUrl (gaData gid (meta.http_host.getD "")
        (meta.path_info.getD "/") (meta.http_referer.getD "")
        ((meta.remote_addr.getD "") ++ "; " ++
          (meta.http_user_agent.getD "unknown"))
        randRequest randCookie randNumber today
        (extractTitle response.content)) = .ok () →
      gaProcessResponse urlopen gid meta randRequest randCookie randNumber
        today response = .ok response) ∧
    (∀ e, urlopen gaUrl (gaData gid (meta.http_host.getD "")
        (meta.path_info.getD "/") (meta.http_referer.getD "")
        ((meta.remote_addr.getD "") ++ "; " ++
          (meta.http_user_agent.getD "unknown"))
        randRequest randCookie randNumber today
        (extractTitle response.content)) = .error e →
      gaProcessResponse urlopen gid meta randRequest randCookie randNumber
        today response = .error e) := by
  constructor
  · intro h
    simp [gaProcessResponse, gaDispatch, h]
  · intro e h
    simp [gaProcessResponse, gaDispatch, h]

/-- Witness for the amended C5: a succeeding transport returns the response
unmodified; the failing transport propagates its error. -/
theorem C5_amended_witness :
    gaProcessResponse (fun _ _ => .ok ()) "UA-1" demoMeta 1 2 3 0 demoResp =
      .ok demoResp ∧
    gaProcessResponse gaFailOpen "UA-1" demoMeta 9 8 7 0 demoResp =
      .error () := by
  constructor
  · exact (C5_amended_response (fun _ _ => .ok ()) "UA-1" demoMeta
      1 2 3 0 demoResp).1 rfl
  · exact (C5_amended_response gaFailOpen "UA-1" demoMeta
      9 8 7 0 demoResp).2 () rfl

/-- Claim C9: extracting the page title for the beacon payload never raises —
the unguarded `search(...).group(1)` failure is caught by the `try/except` —
and when the content has no `<title>` match the title used in the payload is
the empty string, so `process_response` proceeds to the dispatch step with
`title = ""`. -/
theorem C9_title_default (urlopen : String → String → Except Unit Unit)
    (gid : String) (meta : GaMeta) (randRequest randCookie randNumber : Nat)
    (today : Int) (response : HttpResponse)
    (h : titleSearch response.content = none) :
    titleAttempt response.content = .error () ∧
    extractTitle response.content = "" ∧
    gaProcessResponse urlopen gid meta randRequest randCookie randNumber
        today response =
      gaDispatch urlopen gid meta randRequest randCookie randNumber today ""
        response := by
  have ha : titleAttempt response.content = .error () := by
    simp [titleAttempt, h]
  have he : extractTitle response.content = "" := by
    simp [extractTitle, ha]
  exact ⟨ha, he, by simp [gaProcessResponse, he]⟩

/-- Witness for C9: `demoResp` has no title tag; the guarded extraction
yields `""` even though the unguarded expression fails. -/
theorem C9_title_default_witness :
    titleAttempt demoResp.content = .error () ∧
    extractTitle demoResp.content = "" ∧
    gaProcessResponse gaFailOpen "UA-1" demoMeta 1 2 3 0 demoResp =
      gaDispatch gaFailOpen "UA-1" demoMeta 1 2 3 0 "" demoResp :=
  C9_title_default gaFailOpen "UA-1" demoMeta 1 2 3 0 demoResp rfl
